import Mathlib

/-!
Verification of the MonTracker wallet-activity monitor.

Shallow embedding of the scan-and-classify engine of the repository:
`main.py` (range resolution, log decoding, token-metadata probing, the
contract-interaction filter, the per-cycle cursor update) and
`database.py` (the transaction history and wallet tables).  Python
integers are modelled as `Int`/`Nat`, fallible operations as `Option`
or `Except`, SQLite tables as lists of rows.
-/

namespace MonTracker

/-- Python's `str.lower()` on the ASCII hex strings the monitor
handles. -/
def lowerStr (s : String) : String := ⟨s.data.map Char.toLower⟩

/-! ## database.py -/

/-- A row of the `transactions` table (`database.py`, `init_database`).
`tx_hash` carries a `UNIQUE` constraint.  Columns not needed by any
claim (token fields, block number, gas, timestamps) are elided; they
travel with the row exactly like `fromAddr`/`toAddr`/`value` do. -/
structure TxRecord where
  walletAddress : String
  txHash : String
  txType : String
  fromAddr : String
  toAddr : String
  value : String
deriving DecidableEq

/-- The `Database.save_transaction` method (`database.py` 223-252).
It issues `INSERT OR IGNORE INTO transactions`; because `tx_hash` is
`UNIQUE`, a row whose hash is already present is silently ignored, and
the method returns `True` either way. -/
def save_transaction (store : List TxRecord)
    (walletAddress txHash txType fromAddr toAddr value : String) :
    List TxRecord × Bool :=
  if store.any (fun r => r.txHash == txHash) then (store, true)
  else (store ++ [⟨lowerStr walletAddress, txHash, txType, fromAddr, toAddr, value⟩], true)

/-- A row of the `wallets` table (`database.py`, `init_database`), with
`UNIQUE(wallet_address, user_id)`. -/
structure WalletRow where
  walletAddress : String
  userId : Int
  lastProcessedBlock : Int
  isActive : Bool
deriving DecidableEq

/-- Lookup of the row for a `(wallet_address, user_id)` pair. -/
def find_wallet (store : List WalletRow) (walletLower : String) (userId : Int) :
    Option WalletRow :=
  store.find? (fun r => r.walletAddress == walletLower && r.userId == userId)

/-- The `Database.add_wallet` method (`database.py` 133-145).  It issues
`INSERT OR REPLACE INTO wallets (wallet_address, user_id,
last_processed_block, is_active) VALUES (?, ?, ?, 1)` with the address
lowercased: an existing row for the same `(wallet_address, user_id)`
pair is replaced by the fresh row, and the method returns `True`. -/
def add_wallet (store : List WalletRow) (walletAddress : String)
    (userId : Int) (currentBlock : Int) : List WalletRow × Bool :=
  (⟨lowerStr walletAddress, userId, currentBlock, true⟩ ::
      store.filter (fun r =>
        !(r.walletAddress == lowerStr walletAddress && r.userId == userId)),
    true)

/-- The `Database.remove_wallet` method (`database.py` 147-160): a soft
delete that sets `is_active = 0` for the pair and reports whether a row
was touched. -/
def remove_wallet (store : List WalletRow) (walletAddress : String) (userId : Int) :
    List WalletRow × Bool :=
  (store.map (fun r =>
      if r.walletAddress == lowerStr walletAddress && r.userId == userId then
        { r with isActive := false }
      else r),
    store.any (fun r => r.walletAddress == lowerStr walletAddress && r.userId == userId))

/-! ## main.py: range resolution and the per-cycle cursor update -/

/-- The block-range resolution at the top of `check_wallet_activity`
(`main.py` 565-572): `last_block = current_block - 100` when the stored
cursor is `0`, then `from_block = last_block + 1`. -/
def resolvedFrom (lastBlock currentBlock : Int) : Int :=
  (if lastBlock = 0 then currentBlock - 100 else lastBlock) + 1

/-- The resolved `(from_block, to_block)` pair of one cycle
(`main.py` 565-572): `to_block = current_block`. -/
def resolveRange (lastBlock currentBlock : Int) : Int × Int :=
  (resolvedFrom lastBlock currentBlock, currentBlock)

/-- Events collected from the per-kind scanners of one cycle.  Each
scanner either returns its events or raises; a raised error is caught
and logged inside the scanner itself (`main.py` 314-315, 384-385,
441-442, 509-510, 557-558), so the dispatcher only ever sees the
events of the scanners that succeeded. -/
def collectEvents (scans : List (Except String (List String))) : List String :=
  scans.foldr (fun r acc => match r with | .ok es => es ++ acc | .error _ => acc) []

/-- Error messages logged by the failing scanners of one cycle. -/
def collectErrors (scans : List (Except String (List String))) : List String :=
  scans.foldr (fun r acc => match r with | .ok _ => acc | .error e => e :: acc) []

/-- One cycle of `check_wallet_activity` for one address
(`main.py` 561-635), restricted to its observable effect: the new
cursor value, the emitted events and the logged scanner errors.  When
`from_block > to_block` the scanners are skipped and the cursor is left
alone; otherwise every scanner runs (each catching its own exceptions)
and `db.update_last_processed_block(wallet_address, to_block)` runs
unconditionally afterwards (`main.py` 632). -/
def check_wallet_activity (lastBlock currentBlock : Int)
    (scans : List (Except String (List String))) :
    Int × List String × List String :=
  if resolvedFrom lastBlock currentBlock > currentBlock then (lastBlock, [], [])
  else (currentBlock, collectEvents scans, collectErrors scans)

/-- The cursor component of one cycle. -/
def advancedCursor (lastBlock currentBlock : Int) : Int :=
  (check_wallet_activity lastBlock currentBlock []).1

/-- The successive cursor values produced by running one cycle per
chain head in `heads`, starting from cursor `lastBlock`. -/
def cursorTrace (lastBlock : Int) (heads : List Int) : List Int :=
  match heads with
  | [] => []
  | H :: rest => advancedCursor lastBlock H :: cursorTrace (advancedCursor lastBlock H) rest

/-- Concrete scanner outcomes for one cycle in which the
contract-interaction scanner raised and every other scanner succeeded. -/
def c1Scans : List (Except String (List String)) :=
  [.ok ["native 0xaaa"], .ok [], .ok [], .ok [],
    .error "Error checking contract interactions: RPC timeout", .ok []]

/-! ## main.py: token metadata resolution -/

/-- The chain as seen by `get_token_info`: each static contract call
(`name()`, `symbol()`, `decimals()` under the ERC-20 ABI, `name()`,
`symbol()` under the ERC-721 ABI) either returns a value or reverts. -/
structure ChainView where
  erc20Name : String → Option String
  erc20Symbol : String → Option String
  erc20Decimals : String → Option Nat
  erc721Name : String → Option String
  erc721Symbol : String → Option String

/-- The dictionary returned by `get_token_info` (`main.py` 32-47);
`isNFT` records the presence of the extra `"type": "NFT"` key of the
ERC-721 branch. -/
structure TokenInfo where
  name : String
  symbol : String
  decimals : Nat
  isNFT : Bool
deriving DecidableEq

/-- The `get_token_info` function (`main.py` 32-47): try the ERC-20
read set `name`, `symbol`, `decimals`; if any of the three calls
raises, try the ERC-721 read set `name`, `symbol` with `decimals = 0`;
if that also raises, fall back to Unknown/UNK/18.  There is no cache:
the function body starts probing on every invocation. -/
def get_token_info (c : ChainView) (a : String) : TokenInfo :=
  match c.erc20Name a, c.erc20Symbol a, c.erc20Decimals a with
  | some n, some s, some d => ⟨n, s, d, false⟩
  | _, _, _ =>
    match c.erc721Name a, c.erc721Symbol a with
    | some n, some s => ⟨n, s, 0, true⟩
    | _, _ => ⟨"Unknown", "UNK", 18, false⟩

/-- Number of contract calls attempted by the ERC-721 branch of
`get_token_info`: `name()` is always attempted; `symbol()` only when
`name()` succeeded. -/
def nftProbeCalls (c : ChainView) (a : String) : Nat :=
  match c.erc721Name a with
  | none => 1
  | some _ => 2

/-- Number of contract calls attempted by one invocation of
`get_token_info` (`main.py` 32-47): the ERC-20 calls run in sequence
and stop at the first failure, after which the ERC-721 branch runs. -/
def tokenProbeCalls (c : ChainView) (a : String) : Nat :=
  match c.erc20Name a with
  | none => 1 + nftProbeCalls c a
  | some _ =>
    match c.erc20Symbol a with
    | none => 2 + nftProbeCalls c a
    | some _ =>
      match c.erc20Decimals a with
      | none => 3 + nftProbeCalls c a
      | some _ => 3

/-- Results of a sequence of `get_token_info` lookups: each request is
answered by a fresh invocation (no cache exists in `main.py`). -/
def lookupAll (c : ChainView) (reqs : List String) : List TokenInfo :=
  reqs.map (get_token_info c)

/-- Total number of contract calls issued by a sequence of
`get_token_info` lookups. -/
def totalProbeCalls (c : ChainView) (reqs : List String) : Nat :=
  (reqs.map (tokenProbeCalls c)).sum

/-- A chain on which every metadata call reverts, so every probe of any
address resolves to the Unknown fallback. -/
def noTokenChain : ChainView :=
  ⟨fun _ => none, fun _ => none, fun _ => none, fun _ => none, fun _ => none⟩

/-- A chain implementing the full ERC-20 read set. -/
def c8FungibleChain : ChainView :=
  ⟨fun _ => some "TokA", fun _ => some "A", fun _ => some 9,
    fun _ => some "NftX", fun _ => some "X"⟩

/-- A chain whose `decimals()` reverts but whose ERC-721 read set
succeeds. -/
def c8NftChain : ChainView :=
  ⟨fun _ => some "NftB", fun _ => some "B", fun _ => none,
    fun _ => some "NftB", fun _ => some "B"⟩

/-! ## abis.py and main.py: selector table and function-name resolution -/

/-- The `FUNCTION_SIGNATURES` table (`abis.py` 124-143).  The source
dictionary literal lists the key `"0x095ea7b3"` twice with the same
value; the association list keeps both entries, and lookup finds the
first. -/
def FUNCTION_SIGNATURES : List (String × String) :=
  [("0xa9059cbb", "transfer(address,uint256)"),
   ("0x23b872dd", "transferFrom(address,address,uint256)"),
   ("0x095ea7b3", "approve(address,uint256)"),
   ("0x42842e0e", "safeTransferFrom(address,address,uint256)"),
   ("0xb88d4fde", "safeTransferFrom(address,address,uint256,bytes)"),
   ("0xf242432a", "safeTransferFrom(address,address,uint256,uint256,bytes)"),
   ("0x7ff36ab5", "swapExactETHForTokens(uint256,address[],address,uint256)"),
   ("0x38ed1739", "swapExactTokensForTokens(uint256,uint256,address[],address,uint256)"),
   ("0x8803dbee", "swapTokensForExactTokens(uint256,uint256,address[],address,uint256)"),
   ("0x414bf389", "exactInputSingle((address,address,uint24,address,uint256,uint256,uint256,uint160))"),
   ("0x49404b7c", "exactInput((bytes,address,uint256,uint256,uint256))"),
   ("0x02751cec", "removeLiquidity(address,address,uint256,uint256,uint256,address,uint256)"),
   ("0xe8e33700", "addLiquidity(address,address,uint256,uint256,uint256,uint256,address,uint256)"),
   ("0x1249c58b", "stake(uint256)"),
   ("0x3d18b912", "unstake(uint256)"),
   ("0x379607f5", "claim()"),
   ("0x2e1a7d4d", "withdraw(uint256)"),
   ("0x095ea7b3", "approve(address,uint256)")]

/-- The `get_function_name` function (`main.py` 50-55).  The input is
the transaction input as a 0x-prefixed hex string; `input_data[:10]`
is the 0x-prefixed 4-byte selector, and the miss branch of the table
lookup is the literal f-string `f"0x{function_signature}"` of the
source, which prepends a second `0x`. -/
def get_function_name (input_data : String) : String :=
  if input_data.length < 10 then "Unknown"
  else
    match FUNCTION_SIGNATURES.lookup (input_data.take 10) with
    | some n => n
    | none => "0x" ++ input_data.take 10

/-! ## main.py: the contract-interaction scanner filter -/

/-- A transaction as the scanners see it (`from`/`to` may be absent,
`input` is a 0x-prefixed hex string). -/
structure Tx where
  fromAddr : Option String
  toAddr : Option String
  input : String
  value : Int
deriving DecidableEq

/-- The sender normalisation of `check_contract_interactions`
(`main.py` 456): lowercased when present, the empty string otherwise. -/
def tx_from_lower (tx : Tx) : String :=
  match tx.fromAddr with
  | some s => lowerStr s
  | none => ""

/-- The emission decision of `check_contract_interactions`
(`main.py` 460-463) for one transaction: sent by the tracked address,
input present, not the bare `0x`, strictly longer than the 10-character
selector prefix, and the resolved function name not in the two-element
exclusion list of plain transfers. -/
def interaction_emitted (walletLower : String) (tx : Tx) : Bool :=
  tx_from_lower tx == walletLower &&
    !(tx.input == "") && !(tx.input == "0x") && decide (10 < tx.input.length) &&
    !(get_function_name tx.input == "transfer(address,uint256)" ||
      get_function_name tx.input == "transferFrom(address,address,uint256)")

/-- A transaction from the tracked wallet calling selector
`0xa9059cbb` (ERC-20 `transfer`) with argument data. -/
def c7TransferTx : Tx := ⟨some "0xAbCd", some "0xToken", "0xa9059cbb00", 0⟩

/-- A transaction from the tracked wallet calling selector
`0x379607f5` (`claim()`), not in the exclusion list. -/
def c7ClaimTx : Tx := ⟨some "0xAbCd", some "0xDeFi", "0x379607f500", 0⟩

/-! ## main.py: Transfer-log decoding -/

/-- keccak256 of the string `Transfer(address,address,uint256)`, the
value of `w3.keccak(text=...)` used as the topic filter in both
`check_erc20_transfers` and `check_erc721_transfers`
(`main.py` 253, 324). -/
def TRANSFER_EVENT_SIG : Nat :=
  0xddf252ad1be2c89b69c2b068fc378daa952ba7f163c4a11628f55a4df523b3ef

/-- A raw event log: 32-byte topics as natural numbers, the data
payload as a byte list, and the emitting contract address. -/
structure Log where
  topics : List Nat
  data : List Nat
  address : String
deriving DecidableEq

/-- Big-endian value of a byte string, i.e. `int(hexstr, 16)` of its
hex rendering. -/
def bytesToNat (bs : List Nat) : Nat :=
  bs.foldl (fun acc b => 256 * acc + b) 0

/-- The decode `int(log['data'].hex(), 16)` of `check_erc20_transfers`
(`main.py` 265): it raises `ValueError` on an empty data payload
(the hex string is bare) and yields the big-endian value otherwise. -/
def parseDataWord (data : List Nat) : Option Nat :=
  match data with
  | [] => none
  | _ => some (bytesToNat data)

/-- The address extraction `'0x' + topic.hex()[26:]` (`main.py`
263-264, 334-335): the low 20 bytes of the 32-byte topic. -/
def addrOfTopic (t : Nat) : Nat := t % 2 ^ 160

/-- The per-log decode of `check_erc20_transfers` (`main.py` 262-266):
`topics[1]`, `topics[2]` and the data word are read inside a
`try`-block whose `except` skips the log, so a missing topic
(IndexError) or an empty data payload (ValueError) yields `none`.
The result is `(from, to, amount)`. -/
def decodeErc20 (log : Log) : Option (Nat × Nat × Nat) :=
  match log.topics[1]?, log.topics[2]?, parseDataWord log.data with
  | some t1, some t2, some amount => some (addrOfTopic t1, addrOfTopic t2, amount)
  | _, _, _ => none

/-- The per-log decode of `check_erc721_transfers` (`main.py` 333-337):
`topics[1]`, `topics[2]`, `topics[3]` are read inside a `try`-block
whose `except` skips the log, so fewer than 4 topics yields `none`.
The result is `(from, to, tokenId)` with the token id the full value
of the 4th topic. -/
def decodeErc721 (log : Log) : Option (Nat × Nat × Nat) :=
  match log.topics[1]?, log.topics[2]?, log.topics[3]? with
  | some t1, some t2, some t3 => some (addrOfTopic t1, addrOfTopic t2, t3)
  | _, _, _ => none

/-- A Transfer-signature log with 4 topics and a non-empty data
payload. -/
def fourTopicLogWithData : Log :=
  ⟨[TRANSFER_EVENT_SIG, 0x111, 0x222, 42], [0x64], "0xtokencontract"⟩

/-- A Transfer-signature log with 3 topics and the amount in the data
payload (a standard ERC-20 Transfer). -/
def threeTopicLogWithData : Log :=
  ⟨[TRANSFER_EVENT_SIG, 1, 2], [0x64], "0xtokencontract"⟩

/-- A Transfer-signature log with 3 topics and an empty data payload. -/
def threeTopicLogEmptyData : Log :=
  ⟨[TRANSFER_EVENT_SIG, 1, 2], [], "0xtokencontract"⟩

/-- The store reached by tracking wallet `0xAbCd` for user 7 at block
50 and then untracking it (soft delete). -/
def c10Store : List WalletRow :=
  (remove_wallet (add_wallet [] "0xAbCd" 7 50).1 "0xAbCd" 7).1

/-! ## Theorems -/

/-- Helper: one cycle never moves the cursor backwards when the chain
head is non-negative. -/
theorem advancedCursor_mono (c H : Int) (hH : 0 ≤ H) : c ≤ advancedCursor c H := by
  unfold advancedCursor check_wallet_activity resolvedFrom
  split_ifs with h <;> simp <;> omega

/-- Helper: the cursor values along any run of cycles form a
non-decreasing chain. -/
theorem cursorTrace_chain (heads : List Int) :
    ∀ lastBlock : Int, (∀ H ∈ heads, 0 ≤ H) →
      List.Chain (fun a b : Int => a ≤ b) lastBlock (cursorTrace lastBlock heads) := by
  induction heads with
  | nil => intro c _; exact List.Chain.nil
  | cons H rest ih =>
      intro c hh
      exact List.Chain.cons (advancedCursor_mono c H (hh H (List.mem_cons_self _ _)))
        (ih _ (fun H2 h2 => hh H2 (List.mem_cons_of_mem _ h2)))

/-- C1: evaluation of the code at a failing input.  With cursor 200,
chain head 210 and the contract-interaction scanner raising while the
other scanners succeed, the cycle still advances the cursor to 210
(the scanner error is only logged), contradicting the claim that the
cursor stays at 200 when any scanner fails. -/
theorem cursor_advances_despite_scanner_failure :
    (check_wallet_activity 200 210 c1Scans).1 = 210 ∧
    (check_wallet_activity 200 210 c1Scans).2.2 =
      ["Error checking contract interactions: RPC timeout"] ∧
    (210 : Int) ≠ 200 := by
  refine ⟨by decide, by decide, by decide⟩

/-- C2 counterexample: a never-scanned address at chain head 1005
resolves its range to `fromBlock = 906`, not `max 1 (1005 - 100) = 905`
as the claim states. -/
theorem bootstrap_fromBlock_off_by_one :
    resolveRange 0 1005 = (906, 1005) ∧ (906 : Int) ≠ max 1 (1005 - 100) := by
  decide

/-- C2 amended: for a stored cursor of 0 the resolved range is
`fromBlock = H - 99` (with no clamping at 1) and `toBlock = H`; in
particular at head 1005 the first range is 906..1005. -/
theorem bootstrap_range_resolution :
    (∀ H : Int, resolveRange 0 H = (H - 99, H)) ∧
    resolveRange 0 1005 = (906, 1005) := by
  constructor
  · intro H
    unfold resolveRange resolvedFrom
    split_ifs with h
    · simp only [Prod.mk.injEq]
      exact ⟨by omega, trivial⟩
    · exact absurd rfl h
  · decide

/-- C3 counterexample: a Transfer-signature log with 4 topics and a
non-empty data payload is decoded by the ERC-20 scanner as a fungible
transfer (amount 100), so a 4-topic log is not excluded from the
fungible classification as the claim states. -/
theorem four_topic_transfer_log_also_decodes_as_erc20 :
    fourTopicLogWithData.topics.length = 4 ∧
    fourTopicLogWithData.topics.head? = some TRANSFER_EVENT_SIG ∧
    decodeErc20 fourTopicLogWithData = some (0x111, 0x222, 100) ∧
    decodeErc20 fourTopicLogWithData ≠ none := by
  refine ⟨by decide, by decide, by decide, by decide⟩

/-- C3 amended: a Transfer-signature log is decoded as a fungible
(ERC-20) transfer exactly when it has at least 3 topics and a
non-empty data payload, with the amount the big-endian value of the
data; it is decoded as a non-fungible (ERC-721) transfer exactly when
it has at least 4 topics, with the token id the 4th topic.  So a
3-topic log is never a non-fungible transfer, a 3-topic log with an
empty payload is dropped by both scanners, and a 4-topic log with a
non-empty payload is classified as both. -/
theorem transfer_log_classification (log : Log) :
    (∀ t1 t2, log.topics[1]? = some t1 → log.topics[2]? = some t2 →
      log.data ≠ [] →
      decodeErc20 log = some (addrOfTopic t1, addrOfTopic t2, bytesToNat log.data)) ∧
    (∀ t1 t2 t3, log.topics[1]? = some t1 → log.topics[2]? = some t2 →
      log.topics[3]? = some t3 →
      decodeErc721 log = some (addrOfTopic t1, addrOfTopic t2, t3)) ∧
    (log.data = [] → decodeErc20 log = none) ∧
    (log.topics[3]? = none → decodeErc721 log = none) ∧
    (log.topics[2]? = none → decodeErc20 log = none) := by
  refine ⟨?_, ?_, ?_, ?_, ?_⟩
  · intro t1 t2 h1 h2 hd
    unfold decodeErc20
    rw [h1, h2]
    rcases hld : log.data with _ | ⟨b, bs⟩
    · exact absurd hld hd
    · simp [parseDataWord]
  · intro t1 t2 t3 h1 h2 h3
    unfold decodeErc721
    rw [h1, h2, h3]
  · intro hd
    cases h1 : log.topics[1]? <;> cases h2 : log.topics[2]? <;>
      simp [decodeErc20, h1, h2, hd, parseDataWord]
  · intro h3
    cases h1 : log.topics[1]? <;> cases h2 : log.topics[2]? <;>
      simp [decodeErc721, h1, h2, h3]
  · intro h2
    cases h1 : log.topics[1]? <;> simp [decodeErc20, h1, h2]

/-- C3 witness: a standard 3-topic ERC-20 Transfer log decodes to a
fungible transfer of amount 100 and not to a non-fungible one, and a
3-topic log with empty data is dropped by the ERC-20 scanner. -/
theorem transfer_log_classification_witness :
    decodeErc20 threeTopicLogWithData = some (1, 2, 100) ∧
    decodeErc721 threeTopicLogWithData = none ∧
    decodeErc20 threeTopicLogEmptyData = none := by
  refine ⟨?_, ?_, ?_⟩
  · have h := (transfer_log_classification threeTopicLogWithData).1 1 2 rfl rfl (by decide)
    rw [h]; decide
  · exact (transfer_log_classification threeTopicLogWithData).2.2.2.1 rfl
  · exact (transfer_log_classification threeTopicLogEmptyData).2.2.1 rfl

/-- C4: writing an activity record a second time with the same
transaction hash is a no-op that still reports success: the store
after the second `save_transaction` equals the store after the first,
and the duplicate write returns `true`. -/
theorem save_transaction_duplicate_hash_noop
    (store : List TxRecord) (h w1 t1 f1 a1 v1 w2 t2 f2 a2 v2 : String) :
    save_transaction (save_transaction store w1 h t1 f1 a1 v1).1 w2 h t2 f2 a2 v2 =
      ((save_transaction store w1 h t1 f1 a1 v1).1, true) := by
  by_cases hc : store.any (fun r => r.txHash == h) = true
  · simp [save_transaction, hc]
  · simp [save_transaction, hc]

/-- C5 counterexample: a cycle at chain head 0 (cursor 0) is treated
as non-empty and advances the cursor to 0; the following cycle at head
50 then re-enters the bootstrap branch and resolves
`fromBlock = -49 ≠ 0 + 1`, breaking contiguity, and block 0 lies in
both resolved ranges, so it is scanned twice. -/
theorem cursor_contiguity_fails_after_zero_advance :
    advancedCursor 0 0 = 0 ∧
    resolvedFrom 0 50 = -49 ∧
    ((-49 : Int) ≠ 0 + 1) ∧
    (resolvedFrom 0 0 ≤ 0 ∧ (0 : Int) ≤ 0) ∧
    (resolvedFrom 0 50 ≤ 0 ∧ (0 : Int) ≤ 50) := by
  decide

/-- C5 amended: over any run of cycles with non-negative chain heads
the written cursor values form a non-decreasing chain, and whenever
the stored cursor is at least 1 the next cycle resolves
`fromBlock = cursor + 1` (contiguous, no gap and no overlap); only a
cursor advanced to 0 (head 0) re-enters the bootstrap branch. -/
theorem cursor_trace_monotone_and_contiguous (lastBlock : Int) (heads : List Int)
    (hheads : ∀ H ∈ heads, 0 ≤ H) :
    List.Chain (fun a b : Int => a ≤ b) lastBlock (cursorTrace lastBlock heads) ∧
    ∀ c H : Int, 1 ≤ c → resolvedFrom c H = c + 1 := by
  refine ⟨cursorTrace_chain heads lastBlock hheads, ?_⟩
  intro c H hc
  unfold resolvedFrom
  split_ifs with h
  · omega
  · rfl

/-- C5 witness: the concrete run from cursor 0 over heads 3, 7, 5 has
a non-decreasing cursor chain, and a stored cursor of 7 resolves the
next range from block 8. -/
theorem cursor_trace_monotone_witness :
    List.Chain (fun a b : Int => a ≤ b) 0 (cursorTrace 0 [3, 7, 5]) ∧
    resolvedFrom 7 9 = 8 := by
  have h := cursor_trace_monotone_and_contiguous 0 [3, 7, 5] (by decide)
  exact ⟨h.1, h.2 7 9 (by decide)⟩

/-- C6 counterexample: on a chain where every probe reverts, looking
the same address up twice costs 4 contract calls in total — the second
lookup issues its 2 probe calls again instead of the 0 the cached
behaviour of the claim would require. -/
theorem token_lookup_reprobes_cached_address :
    tokenProbeCalls noTokenChain "0xtoken" = 2 ∧
    totalProbeCalls noTokenChain ["0xtoken", "0xtoken"] = 4 ∧
    (4 : Nat) ≠ 2 := by
  refine ⟨rfl, rfl, by decide⟩

/-- C6 amended: token metadata is not cached.  Every lookup, including
a lookup of an address already resolved earlier in the process, issues
at least one fresh contract probe, adds its full probe cost to the
running total, and recomputes the (deterministic) result. -/
theorem token_metadata_not_cached (c : ChainView) (a : String) (pre : List String) :
    1 ≤ tokenProbeCalls c a ∧
    totalProbeCalls c (pre ++ [a]) = totalProbeCalls c pre + tokenProbeCalls c a ∧
    lookupAll c (pre ++ [a]) = lookupAll c pre ++ [get_token_info c a] := by
  refine ⟨?_, ?_, ?_⟩
  · unfold tokenProbeCalls
    split
    · omega
    · split
      · omega
      · split <;> omega
  · simp [totalProbeCalls]
  · simp [lookupAll]

/-- C7: the contract-interaction scanner never emits a transaction
whose resolved function is `transfer(address,uint256)` or
`transferFrom(address,address,uint256)`, and it emits every
transaction sent by the tracked address whose input is strictly longer
than the 10-character selector prefix and resolves to any other
function name. -/
theorem contract_interaction_transfer_exclusion (walletLower : String) (tx : Tx) :
    ((get_function_name tx.input = "transfer(address,uint256)" ∨
      get_function_name tx.input = "transferFrom(address,address,uint256)") →
      interaction_emitted walletLower tx = false) ∧
    (tx_from_lower tx = walletLower → 10 < tx.input.length →
      get_function_name tx.input ≠ "transfer(address,uint256)" →
      get_function_name tx.input ≠ "transferFrom(address,address,uint256)" →
      interaction_emitted walletLower tx = true) := by
  constructor
  · rintro (h | h) <;> simp [interaction_emitted, h]
  · intro h1 h2 h3 h4
    have hne : tx.input ≠ "" := by
      intro he; rw [he] at h2; exact absurd h2 (by decide)
    have hne2 : tx.input ≠ "0x" := by
      intro he; rw [he] at h2; exact absurd h2 (by decide)
    simp [interaction_emitted, h1, h2, hne, hne2, h3, h4]

/-- C7 witness: the wallet's `transfer` call is not emitted by the
contract-interaction scanner, while its `claim()` call is. -/
theorem contract_interaction_transfer_exclusion_witness :
    interaction_emitted "0xabcd" c7TransferTx = false ∧
    interaction_emitted "0xabcd" c7ClaimTx = true :=
  ⟨(contract_interaction_transfer_exclusion "0xabcd" c7TransferTx).1 (Or.inl (by decide)),
   (contract_interaction_transfer_exclusion "0xabcd" c7ClaimTx).2 (by decide) (by decide)
      (by decide) (by decide)⟩

/-- C8: the capability probe of `get_token_info` runs in a fixed
order: with all three ERC-20 calls succeeding it returns their values;
if any of the three fails and the ERC-721 calls succeed it returns
their values with `decimals = 0`; if both probes fail it returns the
Unknown/UNK/18 fallback. -/
theorem token_probe_order (c : ChainView) (a : String) :
    (∀ n s d, c.erc20Name a = some n → c.erc20Symbol a = some s →
      c.erc20Decimals a = some d → get_token_info c a = ⟨n, s, d, false⟩) ∧
    ((c.erc20Name a = none ∨ c.erc20Symbol a = none ∨ c.erc20Decimals a = none) →
      ∀ n s, c.erc721Name a = some n → c.erc721Symbol a = some s →
        get_token_info c a = ⟨n, s, 0, true⟩) ∧
    ((c.erc20Name a = none ∨ c.erc20Symbol a = none ∨ c.erc20Decimals a = none) →
      (c.erc721Name a = none ∨ c.erc721Symbol a = none) →
      get_token_info c a = ⟨"Unknown", "UNK", 18, false⟩) := by
  refine ⟨?_, ?_, ?_⟩
  · intro n s d h1 h2 h3
    simp [get_token_info, h1, h2, h3]
  · intro hfail n s h7n h7s
    rcases hfail with h | h | h <;>
      cases hn : c.erc20Name a <;> cases hs : c.erc20Symbol a <;>
        cases hd : c.erc20Decimals a <;> simp_all [get_token_info]
  · intro hfail h721
    rcases hfail with h | h | h <;> rcases h721 with h7 | h7 <;>
      cases hn : c.erc20Name a <;> cases hs : c.erc20Symbol a <;>
        cases hd : c.erc20Decimals a <;> cases h7n : c.erc721Name a <;>
          cases h7s : c.erc721Symbol a <;> simp_all [get_token_info]

/-- C8 witness: the three probe outcomes on concrete chains — full
ERC-20 read set, reverting `decimals()` with a working ERC-721 read
set, and everything reverting. -/
theorem token_probe_order_witness :
    get_token_info c8FungibleChain "0xt" = ⟨"TokA", "A", 9, false⟩ ∧
    get_token_info c8NftChain "0xt" = ⟨"NftB", "B", 0, true⟩ ∧
    get_token_info noTokenChain "0xt" = ⟨"Unknown", "UNK", 18, false⟩ :=
  ⟨(token_probe_order c8FungibleChain "0xt").1 "TokA" "A" 9 rfl rfl rfl,
   (token_probe_order c8NftChain "0xt").2.1 (Or.inr (Or.inr rfl)) "NftB" "B" rfl rfl,
   (token_probe_order noTokenChain "0xt").2.2 (Or.inl rfl) (Or.inl rfl)⟩

/-- C9: evaluation of the code at a failing input.  For the input
`0xdeadbeef00` whose selector `0xdeadbeef` is not in the table,
`get_function_name` returns `0x0xdeadbeef` — the selector with a
doubled `0x` marker — rather than the literal selector the claim
states; the transaction is still not dropped and the name is
non-empty. -/
theorem unresolved_selector_reported_with_doubled_hex_marker :
    get_function_name "0xdeadbeef00" = "0x0xdeadbeef" ∧
    get_function_name "0xdeadbeef00" ≠ "0xdeadbeef" ∧
    get_function_name "0xdeadbeef00" ≠ "" := by
  refine ⟨by decide, by decide, by decide⟩

/-- C10: re-adding a `(wallet, user)` pair already present in the
store succeeds, and afterwards the stored row for the pair is active
with `lastProcessedBlock` overwritten by the supplied current block. -/
theorem add_wallet_reactivates_and_resets_cursor
    (store : List WalletRow) (walletAddress : String) (userId : Int) (currentBlock : Int)
    (hpresent : (find_wallet store (lowerStr walletAddress) userId).isSome = true) :
    (add_wallet store walletAddress userId currentBlock).2 = true ∧
    find_wallet (add_wallet store walletAddress userId currentBlock).1
        (lowerStr walletAddress) userId =
      some ⟨lowerStr walletAddress, userId, currentBlock, true⟩ := by
  refine ⟨rfl, ?_⟩
  simp [find_wallet, add_wallet]

/-- C10 witness: wallet `0xAbCd` of user 7 was tracked at block 50 and
then soft-removed; re-adding it at block 90 succeeds and leaves the
pair active with cursor 90. -/
theorem add_wallet_reactivates_witness :
    (add_wallet c10Store "0xAbCd" 7 90).2 = true ∧
    find_wallet (add_wallet c10Store "0xAbCd" 7 90).1 (lowerStr "0xAbCd") 7 =
      some ⟨lowerStr "0xAbCd", 7, 90, true⟩ :=
  add_wallet_reactivates_and_resets_cursor c10Store "0xAbCd" 7 90 (by decide)

end MonTracker
